import Mathlib

/-!
Verification of the data-synchronization layer of the sg-bus-data-route
repository.  The JavaScript source is shallowly embedded: JavaScript values
are modelled by the inductive `JSValue`, pure utility functions from
`utils.js` (`isValidCoordinate`, `filterValidCoordinates`, `calculateBounds`,
`isValidStopData`, `isValidBusData`) become Lean functions over `JSValue`,
and the polling hooks (`useBusArrivals`, `useNearbyStops`, `useBusRoute`,
`useBusPositions`) become explicit state-transition functions driven by an
event trace (interval ticks, request resolutions, effect cleanup).

Operations that can throw in JavaScript (calling `.filter` on a non-array
receiver, reading a property of `null`/`undefined`) return `Except`;
everything else is total, mirroring the fact that the corresponding
JavaScript expressions cannot throw on the modelled value universe.
-/

namespace SgBus

/-- A JavaScript value, restricted to the shapes the data layer handles:
`null`, `undefined`, booleans, numbers (NaN kept as its own constructor,
finite numbers as rationals; infinities do not arise in the data layer),
strings, arrays and plain objects (association lists of fields). -/
inductive JSValue where
  | null : JSValue
  | undefined : JSValue
  | bool (b : Bool) : JSValue
  | nan : JSValue
  | num (q : ℚ) : JSValue
  | str (s : String) : JSValue
  | arr (xs : List JSValue) : JSValue
  | obj (fields : List (String × JSValue)) : JSValue

namespace JSValue

/-- JavaScript truthiness: `false`, `0`, `NaN`, `""`, `null` and `undefined`
are falsy; every other value (arrays and objects included) is truthy. -/
def truthy : JSValue → Bool
  | .null => false
  | .undefined => false
  | .bool b => b
  | .nan => false
  | .num q => q != 0
  | .str s => s ≠ ""
  | .arr _ => true
  | .obj _ => true

/-- Loose equality against `null` (`x == null` / `x != null`): true exactly
for `null` and `undefined`. -/
def looseEqNull : JSValue → Bool
  | .null => true
  | .undefined => true
  | _ => false

/-- `typeof x === "number"`: NaN is a number too. -/
def typeofNumber : JSValue → Bool
  | .nan => true
  | .num _ => true
  | _ => false

/-- Strict equality with the number literal `0` (`x !== 0` is its
negation). `NaN !== 0` holds, so only the finite number `0` matches. -/
def strictEqZero : JSValue → Bool
  | .num q => q == 0
  | _ => false

/-- `Array.isArray x`. -/
def isArray : JSValue → Bool
  | .arr _ => true
  | _ => false

/-- Decimal-literal fragment of ECMAScript string→number coercion: an
optional sign, digits, and an optional fraction part.  Strings outside this
fragment (exponents, hex, `Infinity`) coerce to NaN in the model; no such
string reaches the numeric position of a validator in the repository, and
the final `typeof` conjuncts of `isValidCoordinate` reject every string anyway,
so the fragment choice cannot change any verified result. -/
def decStrToRat (t : String) : Option ℚ :=
  match t.splitOn "." with
  | [w] => w.toInt?.map (fun i => (i : ℚ))
  | [w, f] =>
    match w.toInt?, f.toNat? with
    | some i, some fn =>
      let fr : ℚ := (fn : ℚ) / ((10 : ℚ) ^ f.length)
      some (if w.startsWith "-" then (i : ℚ) - fr else (i : ℚ) + fr)
    | _, _ => none
  | _ => none

/-- ECMAScript `ToNumber`, as exercised by the global `isNaN`: `none`
models NaN.  `null → 0`, `undefined → NaN`, booleans → `0`/`1`, strings via
the decimal fragment above (empty/whitespace string → `0`), objects → NaN;
array coercion (via `join` then string parsing) is approximated as
empty → `0`, non-empty → NaN.  The array and object cases can never
influence `isValidCoordinate`: its `typeof` conjuncts reject them. -/
def toNumber : JSValue → Option ℚ
  | .null => some 0
  | .undefined => none
  | .bool b => some (if b then 1 else 0)
  | .nan => none
  | .num q => some q
  | .str s => if s.trim = "" then some 0 else decStrToRat s.trim
  | .arr xs => if xs.isEmpty then some 0 else none
  | .obj _ => none

/-- The global `isNaN(x)`: coerce to number, test for NaN. -/
def jsIsNaN (v : JSValue) : Bool := (toNumber v).isNone

/-- Indexing `a[i]` on an array: out-of-range reads give `undefined`.
(The source only indexes values already guarded by `Array.isArray`.) -/
def index : JSValue → Nat → JSValue
  | .arr xs, i => xs.getD i .undefined
  | _, _ => .undefined

/-- `a.length` of an array (the source reads `.length` only after an
`Array.isArray` guard, so other receivers are unreachable there). -/
def arrLength : JSValue → Nat
  | .arr xs => xs.length
  | _ => 0

/-- Property read `o.k`.  Throws a `TypeError` (modelled as `.error`) when
the receiver is `null` or `undefined`; on every other value a missing
property reads as `undefined`.  Non-object receivers (numbers, strings,
arrays) have no own named data properties in the modelled programs, so the
read yields `undefined` for them. -/
def getProp : JSValue → String → Except String JSValue
  | .null, k => .error ("TypeError: cannot read properties of null (reading " ++ k ++ ")")
  | .undefined, k => .error ("TypeError: cannot read properties of undefined (reading " ++ k ++ ")")
  | .obj fields, k => .ok (((fields.filter (fun p => p.1 = k)).headD ("", .undefined)).2)
  | _, _ => .ok .undefined

/-- Optional-chained property read `o?.k`: `undefined` for a nullish
receiver, otherwise an ordinary read. -/
def getPropOpt (v : JSValue) (k : String) : JSValue :=
  match v with
  | .null => .undefined
  | .undefined => .undefined
  | w => (w.getProp k).toOption.getD .undefined

end JSValue

open JSValue

/-! ## `utils.js` — Geospatial Validator and bounds computation -/

/-- `utils.js` `isValidCoordinate(lat, lng)`:
`lat != null && lng != null && !isNaN(lat) && !isNaN(lng) &&
 lat !== 0 && lng !== 0 && typeof lat === "number" && typeof lng === "number"`.
Every operation in the chain is total on `JSValue`, so the embedding
returns `Bool` directly. -/
def isValidCoordinate (lat lng : JSValue) : Bool :=
  !lat.looseEqNull && !lng.looseEqNull &&
  !jsIsNaN lat && !jsIsNaN lng &&
  !lat.strictEqZero && !lng.strictEqZero &&
  lat.typeofNumber && lng.typeofNumber

/-- The callback `filterValidCoordinates` passes to `Array.prototype.filter`:
`coord && Array.isArray(coord) && coord.length >= 2 &&
 isValidCoordinate(coord[0], coord[1])`. -/
def coordEntryOk (coord : JSValue) : Bool :=
  coord.truthy && coord.isArray && decide (2 ≤ coord.arrLength) &&
  isValidCoordinate (coord.index 0) (coord.index 1)

/-- `utils.js` `filterValidCoordinates(coordinates)`:
`coordinates.filter(...)`.  Calling `.filter` on a non-array receiver
throws a `TypeError` in JavaScript, modelled as `.error`; on an array the
entries are filtered by `coordEntryOk`, order preserved. -/
def filterValidCoordinates (coordinates : JSValue) : Except String JSValue :=
  match coordinates with
  | .arr xs => .ok (.arr (xs.filter coordEntryOk))
  | _ => .error "TypeError: coordinates.filter is not a function"

/-- The default `defaultBounds` parameter of `calculateBounds`:
`[[1.2, 103.6], [1.5, 104.0]]`. -/
def defaultBoundsVal : JSValue :=
  .arr [.arr [.num 1.2, .num 103.6], .arr [.num 1.5, .num 104.0]]

/-- `Math.min(...values)` over a list of already-extracted rationals (in
`calculateBounds` every element of `lats`/`lngs` is a finite number, the
filter having kept only valid coordinates).  The empty case — `Infinity`
in JavaScript — is unreachable behind the `validCoords.length === 0`
guard and is given an arbitrary value. -/
def jsMathMin : List ℚ → ℚ
  | [] => 0
  | x :: xs => xs.foldl min x

/-- `Math.max(...values)`, same conventions as `jsMathMin`. -/
def jsMathMax : List ℚ → ℚ
  | [] => 0
  | x :: xs => xs.foldl max x

/-- The rational stored in a number slot (the call sites below only apply
this to slots the validity filter has already certified to hold finite
numbers). -/
def numVal : JSValue → ℚ
  | .num q => q
  | _ => 0

/-- `utils.js` `calculateBounds(coordinates, defaultBounds)`: filter, return
`defaultBounds` when nothing valid remains, otherwise
`[[Math.min(...lats), Math.min(...lngs)], [Math.max(...lats), Math.max(...lngs)]]`
with `lats = validCoords.map(c => c[1])` and `lngs = validCoords.map(c => c[0])`.
Inherits the `TypeError` of `filterValidCoordinates` on a non-array input. -/
def calculateBounds (coordinates : JSValue)
    (defaultBounds : JSValue := defaultBoundsVal) : Except String JSValue :=
  match filterValidCoordinates coordinates with
  | .error e => .error e
  | .ok filtered =>
    let validCoords := match filtered with | .arr ys => ys | _ => []
    if validCoords.length = 0 then .ok defaultBounds
    else
      let lats := validCoords.map (fun c => numVal (c.index 1))
      let lngs := validCoords.map (fun c => numVal (c.index 0))
      .ok (.arr [.arr [.num (jsMathMin lats), .num (jsMathMin lngs)],
                 .arr [.num (jsMathMax lats), .num (jsMathMax lngs)]])

/-- `utils.js` `isValidStopData(stopData)`:
`stopData && Array.isArray(stopData) && stopData.length >= 4 &&
 isValidCoordinate(stopData[0], stopData[1])`. -/
def isValidStopData (stopData : JSValue) : Bool :=
  stopData.truthy && stopData.isArray && decide (4 ≤ stopData.arrLength) &&
  isValidCoordinate (stopData.index 0) (stopData.index 1)

/-- `utils.js` `isValidBusData(bus)`:
`bus && isValidCoordinate(bus.latitude, bus.longitude)`.  The property
reads are reached only when `bus` is truthy, hence never on `null` or
`undefined`; on every other value a property read is total, so the whole
function is total. -/
def isValidBusData (bus : JSValue) : Bool :=
  bus.truthy &&
  isValidCoordinate (bus.getPropOpt "latitude") (bus.getPropOpt "longitude")

/-- The latitude slot `c[1]` of a coordinate entry, as a rational (the
call sites apply this only to entries the validity filter kept, whose
slots are finite numbers). -/
def latOf (c : JSValue) : ℚ := numVal (c.index 1)

/-- The longitude slot `c[0]` of a coordinate entry, as a rational. -/
def lngOf (c : JSValue) : ℚ := numVal (c.index 0)

/-- The validity filter exactly as the spec words it: an entry survives iff
it is an array of length at least 2 whose first two elements satisfy the
coordinate predicate.  Compared against the source-derived `coordEntryOk`
in the theorems below. -/
def specValidPair (c : JSValue) : Bool :=
  match c with
  | .arr ys =>
    decide (2 ≤ ys.length) && isValidCoordinate (ys.getD 0 .undefined) (ys.getD 1 .undefined)
  | _ => false

/-! ## The polling hooks

The hooks are embedded as state-transition functions over an explicit
subscription state, driven by the events the React runtime delivers:
the effect body running on mount, the interval elapsing, an outstanding
`fetch` settling, and the effect cleanup.  Where two hooks are textual
twins up to an endpoint name, a response field and an error message
(`useBusArrivals` and `useBusPositions` of `src/hooks.js`), one core is
instantiated twice with those constants. -/

/-- What one `await fetch(...); await response.json()` delivers to the
hook: either the promise chain rejects (network failure or a JSON parse
failure, both of which land in the same `catch`), or a response arrives
carrying its `ok` flag and parsed body. -/
inductive FetchResult where
  | reject (msg : String)
  | response (ok : Bool) (body : JSValue)

/-- State of one `useBusArrivals` / `useBusPositions` subscription
(`src/hooks.js`), with the bookkeeping needed to state temporal claims:
`snapshot`, `loading` and `error` are the three `useState` slots;
`intervalActive` records whether `setInterval`'s timer is still installed;
`pending` the issue-ordered ids of fetches started but not yet settled;
`writes` a log of every `setArrivals`/`setPositions` invocation (id of the
request that performed it, value written). -/
structure SubState where
  snapshot : JSValue
  loading : Bool
  error : Option String
  intervalActive : Bool
  pending : List Nat
  nextId : Nat
  writes : List (Nat × JSValue)

/-- The initial hook state: `useState([])`, `useState(false)`,
`useState(null)`, no timer, nothing in flight. -/
def initSub : SubState :=
  { snapshot := .arr [], loading := false, error := none,
    intervalActive := false, pending := [], nextId := 0, writes := [] }

/-- The synchronous prefix of `fetchArrivals`/`fetchPositions`:
`setLoading(true); setError(null);` then the `fetch` is issued.  The
source contains no check of `loading` here — the function body starts a
request unconditionally whenever it is invoked. -/
def issueFetch (s : SubState) : SubState :=
  { s with loading := true, error := none,
           pending := s.pending ++ [s.nextId], nextId := s.nextId + 1 }

/-- `data.error?.message || "Invalid response format"`: the fallback
message of the `throw` in the format-check `else` branch.  A falsy or
missing `message` (and, in this model, a non-string one — no modelled
response carries a non-string message) selects the default. -/
def errMsgOf (body : JSValue) : String :=
  match (body.getPropOpt "error").getPropOpt "message" with
  | .str s => if s = "" then "Invalid response format" else s
  | _ => "Invalid response format"

/-- The body-inspection of `useBusArrivals`/`useBusPositions`
(`src/hooks.js`): `if (data.success && data.data.<field>) {
setArrivals(data.data.<field>) } else { throw new Error(data.error?.message
|| "Invalid response format") }`.  Property reads follow JavaScript
semantics (`getProp` throws on a nullish receiver, caught by the
surrounding `catch`); `&&` short-circuits, so `data.data.<field>` is read
only when `data.success` is truthy. -/
def parseSuccessBody (field : String) (body : JSValue) : Except String JSValue :=
  match body.getProp "success" with
  | .error e => .error e
  | .ok success =>
    if success.truthy then
      match body.getProp "data" with
      | .error e => .error e
      | .ok d =>
        match d.getProp field with
        | .error e => .error e
        | .ok payload =>
          if payload.truthy then .ok payload
          else .error (errMsgOf body)
    else .error (errMsgOf body)

/-- Settling of the fetch issued as request `id` in
`useBusArrivals`/`useBusPositions`: the `try`/`catch`/`finally` tail of the
fetch function.  `failMsg` is the message of the `throw` on `!response.ok`
("Failed to fetch arrivals" / "Failed to fetch bus positions").  The
continuation runs whenever the promise settles: the source has no
liveness flag or generation counter, so nothing here consults
`intervalActive` — a request still in flight at cleanup time writes its
result exactly as a live one does. -/
def resolveFetch (field failMsg : String) (s : SubState) (id : Nat)
    (r : FetchResult) : SubState :=
  if id ∈ s.pending then
    let s1 := { s with pending := s.pending.erase id }
    let s2 :=
      match r with
      | .reject m => { s1 with error := some m }
      | .response ok body =>
        if !ok then { s1 with error := some failMsg }
        else
          match parseSuccessBody field body with
          | .ok payload =>
            { s1 with snapshot := payload, writes := s1.writes ++ [(id, payload)] }
          | .error m => { s1 with error := some m }
    { s2 with loading := false }
  else s

/-- The events the runtime delivers to one subscription. -/
inductive HookEvent where
  | mount
  | tick
  | resolve (id : Nat) (r : FetchResult)
  | cleanup

/-- One step of a `src/hooks.js` polling hook (`useBusArrivals` with
`field = "arrivals"`, `useBusPositions` with `field = "positions"`).
`key` is the subscription parameter (stop code / service number):
`if (!key) return` makes the effect a no-op on an empty key.  On mount the
effect body runs the fetch function once and installs the interval; a tick
invokes the fetch function again whenever the timer is still installed —
the source checks nothing else, in particular not `loading`; cleanup runs
`clearInterval` and nothing more. -/
def hookStep (field failMsg key : String) (s : SubState) (e : HookEvent) : SubState :=
  if key = "" then s
  else
    match e with
    | .mount => { issueFetch s with intervalActive := true }
    | .tick => if s.intervalActive then issueFetch s else s
    | .resolve id r => resolveFetch field failMsg s id r
    | .cleanup => { s with intervalActive := false }

/-- A whole event trace, folded through `hookStep` from a start state. -/
def hookRun (field failMsg key : String) (s : SubState) (es : List HookEvent) : SubState :=
  es.foldl (hookStep field failMsg key) s

/-- `useBusArrivals` (`src/hooks.js`): field `"arrivals"`, failure message
`"Failed to fetch arrivals"`. -/
def arrivalsRun (stopCode : String) (s : SubState) (es : List HookEvent) : SubState :=
  hookRun "arrivals" "Failed to fetch arrivals" stopCode s es

/-- `useBusPositions` (`src/hooks.js`): field `"positions"`, failure
message `"Failed to fetch bus positions"`. -/
def positionsRun (serviceNumber : String) (s : SubState) (es : List HookEvent) : SubState :=
  hookRun "positions" "Failed to fetch bus positions" serviceNumber s es

/-- State of one `useNearbyStops` subscription (`src/hooks.js`): the hook
declares only `stops` and `loading` — it has no error slot at all. -/
structure NearbyState where
  stops : JSValue
  loading : Bool

/-- Settling of one `useNearbyStops` fetch (`src/hooks.js`, lines 49–72):
no `response.ok` check; `if (data.success && data.data.features)
setStops(data.data.features); else setStops([])`; the `catch` also runs
`setStops([])`; `finally` clears `loading`.  Every failure path therefore
replaces the held snapshot with the empty array; the prior state is not
consulted. -/
def nearbyResolve (_ : NearbyState) (r : FetchResult) : NearbyState :=
  match r with
  | .reject _ => { stops := .arr [], loading := false }
  | .response _ body =>
    match (match body.getProp "success" with
      | .error e => .error e
      | .ok success =>
        if success.truthy then
          match body.getProp "data" with
          | .error e => .error e
          | .ok d =>
            match d.getProp "features" with
            | .error e => .error e
            | .ok features =>
              .ok (if features.truthy then some features else none)
        else .ok none : Except String (Option JSValue)) with
    | .ok (some features) => { stops := features, loading := false }
    | .ok none => { stops := .arr [], loading := false }
    | .error _ => { stops := .arr [], loading := false }

/-- State of one `useBusRoute` subscription (`BusRoute` hooks file,
`part_000` lines 95–136): only `routeData` (initially `null`) and
`loading` — no error slot. -/
structure RouteState where
  routeData : JSValue
  loading : Bool

/-- The fixed value `useBusRoute` stores on the success path:
`{routes: [{type: "Feature", properties: {pattern: 0}, geometry:
{type: "LineString", coordinates: []}}], stops: []}`. -/
def routeFixedResult : JSValue :=
  .obj [("routes", .arr [.obj
          [("type", .str "Feature"),
           ("properties", .obj [("pattern", .num 0)]),
           ("geometry", .obj [("type", .str "LineString"),
                              ("coordinates", .arr [])])]]),
        ("stops", .arr [])]

/-- Settling of one `useBusRoute` fetch (`part_000`): no `response.ok`
check; `if (routeData.success && routeData.data && routeData.data.routes
&& routeData.data.routes[serviceNumber]) setRouteData({...}); else
setRouteData(null)`; `catch` runs `setRouteData(null)`; `finally` clears
`loading`.  The `&&` chain short-circuits left to right and each property
read follows JavaScript semantics.  The prior state is not consulted:
every settle path overwrites `routeData`. -/
def routeResolve (serviceNumber : String) (_ : RouteState) (r : FetchResult) : RouteState :=
  match r with
  | .reject _ => { routeData := .null, loading := false }
  | .response _ body =>
    match (match body.getProp "success" with
      | .error e => .error e
      | .ok success =>
        if success.truthy then
          match body.getProp "data" with
          | .error e => .error e
          | .ok d =>
            if d.truthy then
              match d.getProp "routes" with
              | .error e => .error e
              | .ok routes =>
                if routes.truthy then
                  match routes.getProp serviceNumber with
                  | .error e => .error e
                  | .ok entry => .ok entry.truthy
                else .ok false
            else .ok false
        else .ok false : Except String Bool) with
    | .ok true => { routeData := routeFixedResult, loading := false }
    | .ok false => { routeData := .null, loading := false }
    | .error _ => { routeData := .null, loading := false }

/-- State of the `RouteVisualization` component (`part_004`):
`routeData` (initially `null`), `busStops`, `loading`, `error`. -/
structure RouteVizState where
  routeData : JSValue
  busStops : JSValue
  loading : Bool
  error : Option String

/-- One decoded-polyline feature of `RouteVisualization.fetchRouteData`
(`part_004` lines 61–72), at position `idx` with decoded `coordinates`. -/
def routeVizFeature (serviceNumber : String) (idx : Nat) (coordinates : JSValue) : JSValue :=
  .obj [("type", .str "Feature"),
        ("properties", .obj
          [("pattern", .num idx),
           ("serviceNo", .str serviceNumber),
           ("direction", .str (if idx = 0 then "Direction 1"
                               else "Direction " ++ toString (idx + 1)))]),
        ("geometry", .obj [("type", .str "LineString"),
                           ("coordinates", coordinates)])]

/-- One stop-sequence fallback feature of `fetchRouteData` (`part_004`
lines 84–96): empty coordinates, the stop sequence kept in `properties`. -/
def routeVizStopFeature (serviceNumber : String) (idx : Nat) (stopSequence : JSValue) : JSValue :=
  .obj [("type", .str "Feature"),
        ("properties", .obj
          [("pattern", .num idx),
           ("serviceNo", .str serviceNumber),
           ("direction", .str (if idx = 0 then "Direction 1"
                               else "Direction " ++ toString (idx + 1))),
           ("stops", stopSequence)]),
        ("geometry", .obj [("type", .str "LineString"),
                           ("coordinates", .arr [])])]

/-- The feature list `fetchRouteData` builds from a present route entry
(`part_004` lines 51–98).  `decode` stands for the external
`@mapbox/polyline` decoder (`none` models a decode throw, whose feature
is skipped).  Polyline features first; when none result and a `stops`
array exists, one fallback feature per stop sequence. -/
def routeVizFeatures (serviceNumber : String) (decode : JSValue → Option JSValue)
    (routeInfo : JSValue) : List JSValue :=
  let polylines := routeInfo.getPropOpt "polylines"
  let fromPolylines :=
    if polylines.truthy && polylines.isArray then
      (match polylines with | .arr ps => ps | _ => []).enum.filterMap
        (fun (p : Nat × JSValue) => (decode p.2).map (routeVizFeature serviceNumber p.1))
    else []
  if fromPolylines.length = 0 then
    let stops := routeInfo.getPropOpt "stops"
    if stops.truthy && stops.isArray then
      (match stops with | .arr ss => ss | _ => []).enum.map
        (fun (p : Nat × JSValue) => routeVizStopFeature serviceNumber p.1 p.2)
    else fromPolylines
  else fromPolylines

/-- Settling of one `RouteVisualization.fetchRouteData` cycle (`part_004`
lines 30–116) on its final response (after the GeoJSON/plain-format
fallback fetches): `!response.ok` throws the HTTP message; a body whose
`success`/`data`/`routes`/`routes[serviceNumber]` chain fails throws
`"Invalid route data response"`; both are caught by the `catch`, which
sets `error` and leaves `routeData` and `busStops` untouched.  On success
`routeData` becomes the feature collection and `busStops` the empty
array; `error` stays `null` (cleared when the cycle started);
`finally` clears `loading`. -/
def routeVizResolve (serviceNumber : String) (decode : JSValue → Option JSValue)
    (s : RouteVizState) (r : FetchResult) : RouteVizState :=
  let started := { s with loading := true, error := none }
  match r with
  | .reject m => { started with error := some m, loading := false }
  | .response ok body =>
    if !ok then
      { started with error := some "HTTP error: Failed to fetch route data", loading := false }
    else
      match (match body.getProp "success" with
        | .error e => .error e
        | .ok success =>
          if success.truthy then
            match body.getProp "data" with
            | .error e => .error e
            | .ok d =>
              if d.truthy then
                match d.getProp "routes" with
                | .error e => .error e
                | .ok routes =>
                  if routes.truthy then
                    match routes.getProp serviceNumber with
                    | .error e => .error e
                    | .ok entry =>
                      .ok (if entry.truthy then some entry else none)
                  else .ok none
              else .ok none
          else .ok none : Except String (Option JSValue)) with
      | .ok (some routeInfo) =>
        { started with
          routeData := .obj
            [("type", .str "FeatureCollection"),
             ("features", .arr (routeVizFeatures serviceNumber decode routeInfo))],
          busStops := .arr [],
          loading := false }
      | .ok none =>
        { started with error := some "Invalid route data response", loading := false }
      | .error m => { started with error := some m, loading := false }

/-- State of one `useBusPositions` subscription in the `part_000` hooks
file: `positions`, `loading`, `error`. -/
structure PositionsState where
  positions : JSValue
  loading : Bool
  error : Option String

/-- One full cycle of `fetchPositions` in the `part_000` hooks file
(lines 147–160): `setLoading(true); setError(null);` then, with no fetch
at all, `setPositions([]); setError("Real-time bus positions not
available in this API")`; `finally` `setLoading(false)`.  The `try` body
cannot throw, so the `catch` is dead code. -/
def positionsStubCycle (s : PositionsState) : PositionsState :=
  let started := { s with loading := true, error := none }
  let written := { started with
    positions := .arr [],
    error := some "Real-time bus positions not available in this API" }
  { written with loading := false }

/-- A well-formed success body for a `src/hooks.js` poller:
`{success: true, data: {<field>: [<tag>]}}`. -/
def successBody (field tag : String) : JSValue :=
  .obj [("success", .bool true), ("data", .obj [(field, .arr [.str tag])])]

/-- Same shape with an arbitrary array payload under the given field. -/
def successArrBody (field : String) (payload : List JSValue) : JSValue :=
  .obj [("success", .bool true), ("data", .obj [(field, .arr payload)])]

/-- The overlapping-ticks trace: the effect mounts (request 0 issued), the
interval fires while request 0 is still outstanding (request 1 issued),
then both requests resolve successfully in issue order. -/
def overlapTrace : List HookEvent :=
  [.mount, .tick,
   .resolve 0 (.response true (successBody "arrivals" "A")),
   .resolve 1 (.response true (successBody "arrivals" "B"))]

/-! ## Helper lemmas -/

/-- `isValidCoordinate` holds exactly on two finite, nonzero numbers:
every non-number (null, undefined, NaN, string, array, object, boolean)
in either slot makes it false, as does a zero in either slot. -/
theorem isValidCoordinate_char (v w : JSValue) :
    isValidCoordinate v w = true ↔
      ∃ a b : ℚ, v = .num a ∧ w = .num b ∧ a ≠ 0 ∧ b ≠ 0 := by
  cases v <;> cases w <;>
    simp [isValidCoordinate, looseEqNull, jsIsNaN, toNumber, strictEqZero, typeofNumber]

/-- The source-derived entry filter agrees pointwise with the spec-worded
one (`truthy` is redundant after `Array.isArray`, and `c[i]` on an array
is `getD i undefined`). -/
theorem coordEntryOk_eq_spec : coordEntryOk = specValidPair := by
  funext c
  cases c with
  | arr ys =>
    cases ys with
    | nil => simp [coordEntryOk, specValidPair, truthy, isArray, arrLength, index]
    | cons a t =>
      cases t with
      | nil => simp [coordEntryOk, specValidPair, truthy, isArray, arrLength, index]
      | cons b t2 =>
        simp [coordEntryOk, specValidPair, truthy, isArray, arrLength, index]
  | null => simp [coordEntryOk, specValidPair, truthy, isArray]
  | undefined => simp [coordEntryOk, specValidPair, truthy, isArray]
  | bool b => simp [coordEntryOk, specValidPair, truthy, isArray]
  | nan => simp [coordEntryOk, specValidPair, truthy, isArray]
  | num q => simp [coordEntryOk, specValidPair, truthy, isArray]
  | str s => simp [coordEntryOk, specValidPair, truthy, isArray]
  | obj f => simp [coordEntryOk, specValidPair, truthy, isArray]

theorem foldl_min_choice (xs : List ℚ) (x : ℚ) :
    xs.foldl min x = x ∨ xs.foldl min x ∈ xs := by
  induction xs generalizing x with
  | nil => exact Or.inl rfl
  | cons y ys ih =>
    simp only [List.foldl_cons]
    rcases ih (min x y) with h | h
    · rcases min_choice x y with h2 | h2
      · exact Or.inl (h.trans h2)
      · exact Or.inr (by rw [h, h2]; exact List.mem_cons_self _ _)
    · exact Or.inr (List.mem_cons_of_mem _ h)

theorem foldl_min_le (xs : List ℚ) (x : ℚ) :
    xs.foldl min x ≤ x ∧ ∀ q ∈ xs, xs.foldl min x ≤ q := by
  induction xs generalizing x with
  | nil => exact ⟨le_refl x, by simp⟩
  | cons y ys ih =>
    simp only [List.foldl_cons]
    obtain ⟨h1, h2⟩ := ih (min x y)
    refine ⟨le_trans h1 (min_le_left x y), ?_⟩
    intro q hq
    rcases List.mem_cons.mp hq with rfl | hq
    · exact le_trans h1 (min_le_right x q)
    · exact h2 q hq

theorem foldl_max_choice (xs : List ℚ) (x : ℚ) :
    xs.foldl max x = x ∨ xs.foldl max x ∈ xs := by
  induction xs generalizing x with
  | nil => exact Or.inl rfl
  | cons y ys ih =>
    simp only [List.foldl_cons]
    rcases ih (max x y) with h | h
    · rcases max_choice x y with h2 | h2
      · exact Or.inl (h.trans h2)
      · exact Or.inr (by rw [h, h2]; exact List.mem_cons_self _ _)
    · exact Or.inr (List.mem_cons_of_mem _ h)

theorem foldl_max_le (xs : List ℚ) (x : ℚ) :
    x ≤ xs.foldl max x ∧ ∀ q ∈ xs, q ≤ xs.foldl max x := by
  induction xs generalizing x with
  | nil => exact ⟨le_refl x, by simp⟩
  | cons y ys ih =>
    simp only [List.foldl_cons]
    obtain ⟨h1, h2⟩ := ih (max x y)
    refine ⟨le_trans (le_max_left x y) h1, ?_⟩
    intro q hq
    rcases List.mem_cons.mp hq with rfl | hq
    · exact le_trans (le_max_right x q) h1
    · exact h2 q hq

/-- `Math.min` over a nonempty spread selects a member that bounds the
list from below. -/
theorem jsMathMin_spec (l : List ℚ) (h : l ≠ []) :
    jsMathMin l ∈ l ∧ ∀ q ∈ l, jsMathMin l ≤ q := by
  match l with
  | x :: xs =>
    simp only [jsMathMin]
    constructor
    · rcases foldl_min_choice xs x with h1 | h1
      · rw [h1]; exact List.mem_cons_self _ _
      · exact List.mem_cons_of_mem _ h1
    · intro q hq
      obtain ⟨h1, h2⟩ := foldl_min_le xs x
      rcases List.mem_cons.mp hq with rfl | hq
      · exact h1
      · exact h2 q hq

/-- `Math.max` over a nonempty spread selects a member that bounds the
list from above. -/
theorem jsMathMax_spec (l : List ℚ) (h : l ≠ []) :
    jsMathMax l ∈ l ∧ ∀ q ∈ l, q ≤ jsMathMax l := by
  match l with
  | x :: xs =>
    simp only [jsMathMax]
    constructor
    · rcases foldl_max_choice xs x with h1 | h1
      · rw [h1]; exact List.mem_cons_self _ _
      · exact List.mem_cons_of_mem _ h1
    · intro q hq
      obtain ⟨h1, h2⟩ := foldl_max_le xs x
      rcases List.mem_cons.mp hq with rfl | hq
      · exact h1
      · exact h2 q hq

/-- When the validity filter keeps nothing, `calculateBounds` yields the
fallback. -/
theorem calculateBounds_empty_filter (xs : List JSValue) (fb : JSValue)
    (h : xs.filter coordEntryOk = []) :
    calculateBounds (.arr xs) fb = .ok fb := by
  simp [calculateBounds, filterValidCoordinates, h]

/-- When the validity filter keeps something, `calculateBounds` yields the
min/max box over exactly the kept entries. -/
theorem calculateBounds_nonempty (xs : List JSValue) (fb : JSValue)
    (h : xs.filter coordEntryOk ≠ []) :
    calculateBounds (.arr xs) fb =
      .ok (.arr [.arr [.num (jsMathMin ((xs.filter coordEntryOk).map latOf)),
                       .num (jsMathMin ((xs.filter coordEntryOk).map lngOf))],
                 .arr [.num (jsMathMax ((xs.filter coordEntryOk).map latOf)),
                       .num (jsMathMax ((xs.filter coordEntryOk).map lngOf))]]) := by
  simp only [calculateBounds, filterValidCoordinates]
  rw [if_neg (by simpa [List.length_eq_zero] using h)]
  rfl

/-- Filtering twice with the same predicate filters once. -/
theorem filter_self_idem (p : JSValue → Bool) (l : List JSValue) :
    (l.filter p).filter p = l.filter p :=
  List.filter_eq_self.mpr (fun _ ha => List.of_mem_filter ha)

/-- The first coordinate-pair of the spec examples passes the entry filter. -/
theorem coordEntryOk_example_pass : coordEntryOk (.arr [.num 103.8, .num 1.3]) = true := by
  simp [coordEntryOk, truthy, isArray, arrLength, index,
    isValidCoordinate, looseEqNull, jsIsNaN, toNumber, strictEqZero, typeofNumber]
  norm_num

/-- The second bounds-example pair passes the entry filter. -/
theorem coordEntryOk_example_pass2 : coordEntryOk (.arr [.num 103.9, .num 1.4]) = true := by
  simp [coordEntryOk, truthy, isArray, arrLength, index,
    isValidCoordinate, looseEqNull, jsIsNaN, toNumber, strictEqZero, typeofNumber]
  norm_num

/-- The zero pair is rejected by the entry filter. -/
theorem coordEntryOk_zero_fails : coordEntryOk (.arr [.num 0, .num 0]) = false := by
  simp [coordEntryOk, truthy, isArray, arrLength, index,
    isValidCoordinate, looseEqNull, jsIsNaN, toNumber, strictEqZero, typeofNumber]

/-- The NaN pair is rejected by the entry filter. -/
theorem coordEntryOk_nan_fails : coordEntryOk (.arr [.nan, .num 1.3]) = false := by
  simp [coordEntryOk, truthy, isArray, arrLength, index,
    isValidCoordinate, looseEqNull, jsIsNaN, toNumber, strictEqZero, typeofNumber]

/-! ## The claims -/

/-- C6: `calculateBounds` first filters its input through the validity
filter; with no valid coordinate left it returns the fallback (default
`[[1.2,103.6],[1.5,104.0]]`), and otherwise `[[minLat,minLon],[maxLat,maxLon]]`
with the minima and maxima taken over the filtered set only; in particular
`calculateBounds([]) = fallback` and
`calculateBounds([[103.8,1.3],[103.9,1.4]]) = [[1.3,103.8],[1.4,103.9]]`. -/
theorem claim_C6_calculateBounds_filters_then_min_max :
    calculateBounds (.arr []) defaultBoundsVal = .ok defaultBoundsVal
    ∧ calculateBounds
        (.arr [.arr [.num 103.8, .num 1.3], .arr [.num 103.9, .num 1.4]]) defaultBoundsVal
        = .ok (.arr [.arr [.num 1.3, .num 103.8], .arr [.num 1.4, .num 103.9]])
    ∧ (∀ (xs : List JSValue) (fb : JSValue), xs.filter coordEntryOk = [] →
        calculateBounds (.arr xs) fb = .ok fb)
    ∧ (∀ (xs : List JSValue) (fb : JSValue), xs.filter coordEntryOk ≠ [] →
        ∃ a b c d : ℚ,
          calculateBounds (.arr xs) fb =
            .ok (.arr [.arr [.num a, .num b], .arr [.num c, .num d]])
          ∧ a ∈ (xs.filter coordEntryOk).map latOf
          ∧ (∀ q ∈ (xs.filter coordEntryOk).map latOf, a ≤ q)
          ∧ b ∈ (xs.filter coordEntryOk).map lngOf
          ∧ (∀ q ∈ (xs.filter coordEntryOk).map lngOf, b ≤ q)
          ∧ c ∈ (xs.filter coordEntryOk).map latOf
          ∧ (∀ q ∈ (xs.filter coordEntryOk).map latOf, q ≤ c)
          ∧ d ∈ (xs.filter coordEntryOk).map lngOf
          ∧ (∀ q ∈ (xs.filter coordEntryOk).map lngOf, d ≥ q)) := by
  refine ⟨rfl, ?_, ?_, ?_⟩
  · have hf : [JSValue.arr [.num 103.8, .num 1.3], .arr [.num 103.9, .num 1.4]].filter coordEntryOk
        = [JSValue.arr [.num 103.8, .num 1.3], .arr [.num 103.9, .num 1.4]] := by
      simp [List.filter_cons, coordEntryOk_example_pass, coordEntryOk_example_pass2]
    rw [calculateBounds_nonempty _ _ (by rw [hf]; simp)]
    rw [hf]
    simp only [List.map_cons, List.map_nil, latOf, lngOf, numVal, index,
      List.getD, jsMathMin, jsMathMax, List.foldl_cons, List.foldl_nil]
    norm_num
  · exact fun xs fb h => calculateBounds_empty_filter xs fb h
  · intro xs fb h
    have hlat : (xs.filter coordEntryOk).map latOf ≠ [] := by
      simpa [List.map_eq_nil_iff] using h
    have hlng : (xs.filter coordEntryOk).map lngOf ≠ [] := by
      simpa [List.map_eq_nil_iff] using h
    obtain ⟨hmlat, hllat⟩ := jsMathMin_spec _ hlat
    obtain ⟨hmlng, hllng⟩ := jsMathMin_spec _ hlng
    obtain ⟨hxlat, hylat⟩ := jsMathMax_spec _ hlat
    obtain ⟨hxlng, hylng⟩ := jsMathMax_spec _ hlng
    exact ⟨_, _, _, _, calculateBounds_nonempty xs fb h,
      hmlat, hllat, hmlng, hllng, hxlat, hylat, hxlng, hylng⟩

/-- C7: `isValidCoordinate` is true exactly when both arguments are
numbers that are non-null, not NaN and not exactly zero; it is false on
(0,0), (NaN,1) and (1,null), and true on (103.8, 1.35). -/
theorem claim_C7_isValidCoordinate_numbers_nonzero :
    (∀ v w : JSValue, isValidCoordinate v w = true ↔
        ∃ a b : ℚ, v = .num a ∧ w = .num b ∧ a ≠ 0 ∧ b ≠ 0)
    ∧ isValidCoordinate (.num 0) (.num 0) = false
    ∧ isValidCoordinate .nan (.num 1) = false
    ∧ isValidCoordinate (.num 1) .null = false
    ∧ isValidCoordinate (.num 103.8) (.num 1.35) = true := by
  refine ⟨isValidCoordinate_char, by decide, by decide, by decide, ?_⟩
  simp [isValidCoordinate, looseEqNull, jsIsNaN, toNumber, strictEqZero, typeofNumber]
  norm_num

/-- C8: `filterValidCoordinates` returns exactly the sublist of entries
that are arrays of length at least 2 whose first two elements satisfy the
coordinate predicate, in input order (a sublist of the input); on
`[[103.8,1.3],[0,0],[NaN,1.3]]` it keeps exactly `[[103.8,1.3]]`. -/
theorem claim_C8_filterValid_ordered_valid_pairs :
    (∀ xs : List JSValue,
        filterValidCoordinates (.arr xs) = .ok (.arr (xs.filter specValidPair)))
    ∧ (∀ xs : List JSValue, (xs.filter specValidPair).Sublist xs)
    ∧ filterValidCoordinates
        (.arr [.arr [.num 103.8, .num 1.3], .arr [.num 0, .num 0], .arr [.nan, .num 1.3]])
        = .ok (.arr [.arr [.num 103.8, .num 1.3]]) := by
  refine ⟨?_, fun xs => List.filter_sublist xs, ?_⟩
  · intro xs
    simp [filterValidCoordinates, coordEntryOk_eq_spec]
  · simp [filterValidCoordinates, List.filter_cons,
      coordEntryOk_example_pass, coordEntryOk_zero_fails, coordEntryOk_nan_fails]

/-- C9 counterexample: `filterValidCoordinates` applied to `null` — one
of the malformed shapes the claim quantifies over — throws a `TypeError`
(a JavaScript `null.filter` call) instead of returning a filtered result,
so the claim that none of the validator functions ever throw is false. -/
theorem claim_C9_cex_filterValid_null_throws :
    filterValidCoordinates .null
      = .error "TypeError: coordinates.filter is not a function"
    ∧ ¬ ∃ ys : JSValue, filterValidCoordinates .null = .ok ys := by
  refine ⟨rfl, ?_⟩
  rintro ⟨ys, h⟩
  simp [filterValidCoordinates] at h

/-- C9 amended: the predicates `isValidCoordinate`, `isValidStopData` and
`isValidBusData` are total and return false on every malformed input
(non-numbers, NaN, non-arrays, short arrays, objects without a latitude),
and `filterValidCoordinates` never throws and drops malformed entries
provided its argument itself is an array; applied to a non-array value
(e.g. `null`) it instead throws a `TypeError`. -/
theorem claim_C9_validators_total_malformed_yields_false :
    (∀ v w : JSValue, v.typeofNumber = false → isValidCoordinate v w = false)
    ∧ (∀ v w : JSValue, w.typeofNumber = false → isValidCoordinate v w = false)
    ∧ (∀ w : JSValue, isValidCoordinate .nan w = false)
    ∧ (∀ xs : List JSValue, ∃ ys : List JSValue,
        filterValidCoordinates (.arr xs) = .ok (.arr ys) ∧ ys.Sublist xs)
    ∧ (∀ v : JSValue, v.isArray = false →
        filterValidCoordinates v = .error "TypeError: coordinates.filter is not a function")
    ∧ (∀ v : JSValue, v.isArray = false → isValidStopData v = false)
    ∧ (∀ ys : List JSValue, ys.length < 4 → isValidStopData (.arr ys) = false)
    ∧ (∀ v : JSValue, v.getPropOpt "latitude" = .undefined → isValidBusData v = false) := by
  refine ⟨?_, ?_, ?_, ?_, ?_, ?_, ?_, ?_⟩
  · intro v w h
    rcases hb : isValidCoordinate v w with _ | _
    · rfl
    · obtain ⟨a, b, rfl, rfl, _, _⟩ := (isValidCoordinate_char v w).mp hb
      simp [typeofNumber] at h
  · intro v w h
    rcases hb : isValidCoordinate v w with _ | _
    · rfl
    · obtain ⟨a, b, rfl, rfl, _, _⟩ := (isValidCoordinate_char v w).mp hb
      simp [typeofNumber] at h
  · intro w
    rcases hb : isValidCoordinate .nan w with _ | _
    · rfl
    · obtain ⟨a, b, hv, _, _, _⟩ := (isValidCoordinate_char _ w).mp hb
      exact absurd hv (by simp)
  · exact fun xs => ⟨xs.filter coordEntryOk, rfl, List.filter_sublist xs⟩
  · intro v h
    cases v <;> simp_all [filterValidCoordinates, isArray]
  · intro v h
    cases v <;> simp_all [isValidStopData, truthy, isArray]
  · intro ys h
    simp only [isValidStopData, truthy, isArray, arrLength, Bool.true_and]
    rw [decide_eq_false (by omega)]
    rfl
  · intro v h
    simp [isValidBusData, h, isValidCoordinate, looseEqNull]

/-- C10: pre-filtering through the validity filter never changes the
computed bounds — `calculateBounds(filterValidCoordinates(coords), fb)`
equals `calculateBounds(coords, fb)` (stated over every JavaScript value,
arrays included; both sides throw the same `TypeError` on a non-array). -/
theorem claim_C10_bounds_invariant_under_prefiltering :
    ∀ (v fb : JSValue),
      (filterValidCoordinates v).bind (fun w => calculateBounds w fb)
        = calculateBounds v fb := by
  intro v fb
  cases v with
  | arr xs =>
    show calculateBounds (.arr (xs.filter coordEntryOk)) fb = calculateBounds (.arr xs) fb
    simp only [calculateBounds, filterValidCoordinates, filter_self_idem]
  | null => rfl
  | undefined => rfl
  | bool b => rfl
  | nan => rfl
  | num q => rfl
  | str s => rfl
  | obj f => rfl

/-- C1: evaluation of `useBusArrivals` (`src/hooks.js`) on two overlapping
ticks.  The claim says a tick that fires while the previous request is
still outstanding is skipped, so that two overlapping ticks cause exactly
one snapshot write.  The code has no such guard: after mount the state is
`loading` with request 0 outstanding, yet the interval tick issues request
1 anyway, and when both requests resolve successfully each one writes the
snapshot — two writes, the final value being whichever response arrived
last. -/
theorem claim_C1_tick_while_loading_issues_second_request :
    (arrivalsRun "65011" initSub [.mount]).loading = true
    ∧ (arrivalsRun "65011" initSub [.mount]).pending = [0]
    ∧ (arrivalsRun "65011" initSub [.mount, .tick]).pending = [0, 1]
    ∧ (arrivalsRun "65011" initSub [.mount, .tick]).loading = true
    ∧ (arrivalsRun "65011" initSub overlapTrace).writes
        = [(0, .arr [.str "A"]), (1, .arr [.str "B"])]
    ∧ (arrivalsRun "65011" initSub overlapTrace).snapshot = .arr [.str "B"] :=
  ⟨rfl, rfl, rfl, rfl, rfl, rfl⟩

/-- C2 counterexample: the nearby-stops poller (`useNearbyStops`,
`src/hooks.js`) does not retain its previous snapshot on failure — a
rejected fetch replaces a previously held stop list with the empty array
(and the hook has no error state to set), so the claim is false for the
nearby-stops poller. -/
theorem claim_C2_cex_nearby_failure_blanks_snapshot :
    (nearbyResolve { stops := .arr [.str "previousStop"], loading := false }
        (.reject "Failed to fetch")).stops = .arr []
    ∧ (JSValue.arr [] : JSValue) ≠ .arr [.str "previousStop"] :=
  ⟨rfl, by simp⟩

/-- C2 amended: the arrivals and positions pollers of `src/hooks.js`
(which share their fetch-resolution code) do retain the previous snapshot
and set a human-readable error on every failure kind — promise rejection,
non-2xx response, format error; the nearby-stops and route pollers
instead clear their snapshot (to `[]` and `null` respectively) on a
failure and expose no error state at all. -/
theorem claim_C2_failure_retention_depends_on_poller :
    (∀ (field failMsg : String) (s : SubState) (id : Nat) (m : String),
        (resolveFetch field failMsg s id (.reject m)).snapshot = s.snapshot)
    ∧ (∀ (field failMsg : String) (s : SubState) (id : Nat) (m : String), id ∈ s.pending →
        (resolveFetch field failMsg s id (.reject m)).error = some m)
    ∧ (∀ (field failMsg : String) (s : SubState) (id : Nat) (body : JSValue),
        (resolveFetch field failMsg s id (.response false body)).snapshot = s.snapshot)
    ∧ (∀ (field failMsg : String) (s : SubState) (id : Nat) (body : JSValue), id ∈ s.pending →
        (resolveFetch field failMsg s id (.response false body)).error = some failMsg)
    ∧ (∀ (field failMsg : String) (s : SubState) (id : Nat) (body : JSValue) (m : String),
        parseSuccessBody field body = .error m →
        (resolveFetch field failMsg s id (.response true body)).snapshot = s.snapshot)
    ∧ (∀ (field failMsg : String) (s : SubState) (id : Nat) (body : JSValue) (m : String),
        id ∈ s.pending → parseSuccessBody field body = .error m →
        (resolveFetch field failMsg s id (.response true body)).error = some m)
    ∧ (∀ (s : NearbyState) (m : String),
        nearbyResolve s (.reject m) = { stops := .arr [], loading := false })
    ∧ (∀ (svc : String) (s : RouteState) (m : String),
        routeResolve svc s (.reject m) = { routeData := .null, loading := false }) := by
  refine ⟨?_, ?_, ?_, ?_, ?_, ?_, fun s m => rfl, fun svc s m => rfl⟩
  · intro field failMsg s id m
    by_cases hm : id ∈ s.pending <;> simp [resolveFetch, hm]
  · intro field failMsg s id m hm
    simp [resolveFetch, hm]
  · intro field failMsg s id body
    by_cases hm : id ∈ s.pending <;> simp [resolveFetch, hm]
  · intro field failMsg s id body hm
    simp [resolveFetch, hm]
  · intro field failMsg s id body m h
    by_cases hm : id ∈ s.pending <;> simp [resolveFetch, hm, h]
  · intro field failMsg s id body m hm h
    simp [resolveFetch, hm, h]

/-- C3: evaluation of `useBusArrivals` teardown with a request in flight.
The cleanup clears the interval (a tick afterwards is a no-op), but the
source guards the fetch continuation with no liveness flag: the request
still outstanding at cleanup time writes its result into the snapshot
slot, appends to the write log and toggles `loading` when it resolves —
an observable state change after teardown, contradicting the claim. -/
theorem claim_C3_inflight_request_writes_after_teardown :
    (arrivalsRun "65011" initSub [.mount, .cleanup]).intervalActive = false
    ∧ (arrivalsRun "65011" initSub [.mount, .cleanup]).pending = [0]
    ∧ (arrivalsRun "65011" initSub [.mount, .cleanup]).snapshot = .arr []
    ∧ arrivalsRun "65011" initSub [.mount, .cleanup, .tick]
        = arrivalsRun "65011" initSub [.mount, .cleanup]
    ∧ (arrivalsRun "65011" initSub
        [.mount, .cleanup, .resolve 0 (.response true (successBody "arrivals" "A"))]).snapshot
        = .arr [.str "A"]
    ∧ (arrivalsRun "65011" initSub
        [.mount, .cleanup, .resolve 0 (.response true (successBody "arrivals" "A"))]).writes
        = [(0, .arr [.str "A"])] :=
  ⟨rfl, rfl, rfl, rfl, rfl, rfl⟩

/-- C4 counterexample: `RouteVisualization.fetchRouteData` (`part_004`),
one of the two route fetchers the claim covers, does raise an error state
on a successful response whose `data.routes` lacks the queried service
number: processing the response `{success: true, data: {routes: {"10":
{}}}}` for service "27" sets `error` to "Invalid route data response"
instead of a "no route" success value. -/
theorem claim_C4_cex_routeViz_absent_key_raises_error :
    routeVizResolve "27" (fun _ => none)
      { routeData := .null, busStops := .arr [], loading := false, error := none }
      (.response true (.obj [("success", .bool true),
        ("data", .obj [("routes", .obj [("10", .obj [])])])]))
    = { routeData := .null, busStops := .arr [], loading := false,
        error := some "Invalid route data response" } := rfl

/-- C4 amended: `useBusRoute` (the hooks file) behaves as claimed — a
successful response without the queried service key settles to
`routeData = null` with `loading` cleared, and the hook has no error
state to raise; but `RouteVisualization.fetchRouteData` (`part_004`)
treats the same situation as a failure, throwing and recording the error
"Invalid route data response" while keeping its previous `routeData`. -/
theorem claim_C4_absent_key_null_in_hook_error_in_routeViz :
    (∀ (svc : String) (s : RouteState) (ok : Bool)
        (routesFields : List (String × JSValue)),
        (∀ p ∈ routesFields, p.1 ≠ svc) →
        routeResolve svc s (.response ok
          (.obj [("success", .bool true), ("data", .obj [("routes", .obj routesFields)])]))
          = { routeData := .null, loading := false })
    ∧ routeResolve "27" { routeData := routeFixedResult, loading := true }
        (.response true (.obj [("success", .bool true),
          ("data", .obj [("routes", .obj [("10", .obj [])])])]))
        = { routeData := .null, loading := false }
    ∧ (∀ (svc : String) (decode : JSValue → Option JSValue) (s : RouteVizState)
        (routesFields : List (String × JSValue)),
        (∀ p ∈ routesFields, p.1 ≠ svc) →
        routeVizResolve svc decode s (.response true
          (.obj [("success", .bool true), ("data", .obj [("routes", .obj routesFields)])]))
          = { routeData := s.routeData, busStops := s.busStops, loading := false,
              error := some "Invalid route data response" }) := by
  refine ⟨?_, rfl, ?_⟩
  · intro svc s ok routesFields h
    have hfind : routesFields.find? (fun p => p.1 = svc) = none :=
      List.find?_eq_none.mpr (by simpa using h)
    have hfil : routesFields.filter (fun p => p.1 = svc) = [] := by
      rw [List.filter_eq_nil_iff]; simpa using h
    simp [routeResolve, getProp, truthy, hfind, hfil]
  · intro svc decode s routesFields h
    have hfind : routesFields.find? (fun p => p.1 = svc) = none :=
      List.find?_eq_none.mpr (by simpa using h)
    have hfil : routesFields.filter (fun p => p.1 = svc) = [] := by
      rw [List.filter_eq_nil_iff]; simpa using h
    simp [routeVizResolve, getProp, truthy, hfind, hfil]

/-- C5 counterexample: `useBusPositions` of `src/hooks.js` — cited by the
claim — does not deterministically produce the capability-unavailable
outcome: a successful `/api/realtime` response with an empty positions
array leaves the subscription with no error and an empty snapshot, i.e. a
success with empty data, which the claim says never happens. -/
theorem claim_C5_cex_hooks_positions_success_with_empty_data :
    (positionsRun "27" initSub
        [.mount, .resolve 0 (.response true (successArrBody "positions" []))]).error = none
    ∧ (positionsRun "27" initSub
        [.mount, .resolve 0 (.response true (successArrBody "positions" []))]).snapshot
        = .arr []
    ∧ (positionsRun "27" initSub
        [.mount, .resolve 0 (.response true (successArrBody "positions" []))]).loading
        = false :=
  ⟨rfl, rfl, rfl⟩

/-- C5 amended: the `useBusPositions` of the `part_000` hooks file issues
no fetch and deterministically ends every cycle with an empty position
list and the fixed error "Real-time bus positions not available in this
API", from any state; the `useBusPositions` of `src/hooks.js` instead
really fetches `/api/realtime` — on success it stores the fetched
positions with no error (empty included), and on failure its message is
the generic "Failed to fetch bus positions", not a capability-specific
one. -/
theorem claim_C5_stub_deterministic_hooks_variant_response_dependent :
    (∀ s : PositionsState, positionsStubCycle s =
        { positions := .arr [], loading := false,
          error := some "Real-time bus positions not available in this API" })
    ∧ (positionsRun "27" initSub
        [.mount, .resolve 0 (.response true (successArrBody "positions" [.str "bus1"]))]).snapshot
        = .arr [.str "bus1"]
    ∧ (positionsRun "27" initSub
        [.mount, .resolve 0 (.response true (successArrBody "positions" [.str "bus1"]))]).error
        = none
    ∧ (positionsRun "27" initSub [.mount, .resolve 0 (.response false .null)]).error
        = some "Failed to fetch bus positions" :=
  ⟨fun _ => rfl, rfl, rfl, rfl⟩

end SgBus
